import Mathlib

/-!
# PosixMQ (src/posixmq.cc): a shallow embedding

The C++ class `PosixMQ` wraps one POSIX message-queue descriptor for a
single-threaded event loop.  Every method is embedded as a pure function

    State → arguments → Env → Res

where `Env` carries the answers the operating system gives to the calls the
method issues (the embedding makes no assumption about them: every answer is
possible at every call), and `Res` carries the state after the call, the value
returned or the exception thrown, and the ordered trace of calls made to the
outside world (message-queue calls, dispatcher calls, the sink).

Conventions
* `mqd_t`, `long`, `ssize_t` are `Int`; `uint32_t` and bit masks are `Nat`.
  `Integer::New` takes an `int32_t`, so values handed to it are wrapped.
* The dispatcher (libev) is modelled by the watcher's `active` flag together
  with the list `watched` of descriptors under which the loop currently links
  the handle's watcher.  `ev_io_start` and `ev_io_stop` follow libev: start is
  a no-op on an active watcher, stop is a no-op on an inactive one, and
  `ev_init` clears the flag without touching the loop.
* The constructor leaves `mqattrs` and `mqpollhandle` unset; the attribute
  block is a parameter of `PosixMQ.new`, the watcher starts out not started.
* The notification sink (`obj->Emit->Call`) is an event of the trace; it is
  assumed to return and not to call back into the handle.
-/

namespace PMQ

/-! ## Host values (V8) -/

/-- A JavaScript number: an integral value, negative zero, NaN, or any other
(non-integral or infinite) value. -/
inductive JsNumber where
  | int (i : Int)
  | negZero
  | nan
  | other
deriving DecidableEq, Repr

/-- The host values the methods inspect. -/
inductive JsValue where
  | undefined
  | null
  | boolean (b : Bool)
  | number (n : JsNumber)
  | string (s : String)
  | buffer (data : List Nat)
  | array (elems : List JsValue)
  | object (props : List (String × JsValue))

/-- Message of a thrown exception: a literal of the source, or the text
`uv_strerror(uv_last_error(uv_default_loop()))`. -/
inductive Msg where
  | lit (s : String)
  | uv_strerror
deriving DecidableEq, Repr

/-- The two exception classes the source throws. -/
inductive Exception where
  | TypeError (m : Msg)
  | Error (m : Msg)
deriving DecidableEq, Repr

/-- How a method call completes. -/
inductive Completion where
  | ret (v : JsValue)
  | throw (e : Exception)

/-- Whether a call returned normally. -/
def Completion.returned : Completion → Bool
  | .ret _ => true
  | .throw _ => false

def IsUndefined : JsValue → Bool
  | .undefined => true
  | _ => false

def IsBoolean : JsValue → Bool
  | .boolean _ => true
  | _ => false

def IsString : JsValue → Bool
  | .string _ => true
  | _ => false

def IsObject : JsValue → Bool
  | .buffer _ => true
  | .array _ => true
  | .object _ => true
  | _ => false

def IsUint32 : JsValue → Bool
  | .number (.int i) => decide (0 ≤ i) && decide (i < 4294967296)
  | _ => false

/-- The value of `val->Uint32Value()`; only called where `IsUint32` holds. -/
def Uint32Value : JsValue → Nat
  | .number (.int i) => (i % 4294967296).toNat
  | _ => 0

def BooleanValue : JsValue → Bool
  | .undefined => false
  | .null => false
  | .boolean b => b
  | .number (.int i) => decide (i ≠ 0)
  | .number .negZero => false
  | .number .nan => false
  | .number .other => true
  | .string s => decide (s ≠ "")
  | .buffer _ => true
  | .array _ => true
  | .object _ => true

/-- The text of `val->ToString()` read through `String::AsciiValue`; only
called on strings. -/
def AsciiValue : JsValue → String
  | .string s => s
  | _ => ""

/-- Property read `config->Get(key)`: a missing property reads `undefined`. -/
def Get (v : JsValue) (key : String) : JsValue :=
  match v with
  | .object props => (props.lookup key).getD .undefined
  | _ => .undefined

def Buffer_HasInstance : JsValue → Bool
  | .buffer _ => true
  | _ => false

def Buffer_Data : JsValue → List Nat
  | .buffer d => d
  | _ => []

def Buffer_Length (v : JsValue) : Nat := (Buffer_Data v).length

/-- Conversion to `int32_t`, the parameter type of `Integer::New`. -/
def toInt32 (x : Int) : Int := (x + 2147483648) % 4294967296 - 2147483648

def Integer_New (x : Int) : JsValue := .number (.int (toInt32 x))

def Boolean_New (b : Bool) : JsValue := .boolean b

/-- Argument `args[i]`; reading past the end gives `undefined`. -/
def arg (args : List JsValue) (i : Nat) : JsValue := args.getD i .undefined

/-! ## C library pieces -/

def isspace (c : Char) : Bool :=
  c.toNat == 32 || (decide (9 ≤ c.toNat) && decide (c.toNat ≤ 13))

def ULONG_MAX : Nat := 18446744073709551615

/-- Value of the longest prefix of octal digits, with accumulator `acc`. -/
def octalPrefix : List Char → Nat → Nat
  | [], acc => acc
  | c :: cs, acc =>
    if decide (48 ≤ c.toNat) && decide (c.toNat ≤ 55) then
      octalPrefix cs (acc * 8 + (c.toNat - 48))
    else acc

/-- The call `strtoul(s, NULL, 8)` on a 64-bit `unsigned long`. -/
def strtoul8 (s : String) : Nat :=
  let cs := s.toList.dropWhile isspace
  let neg := cs.head? == some (Char.ofNat 45)
  let signed := neg || cs.head? == some (Char.ofNat 43)
  let v := octalPrefix (if signed then cs.drop 1 else cs) 0
  if ULONG_MAX < v then ULONG_MAX
  else if neg then (ULONG_MAX + 1 - v) % (ULONG_MAX + 1)
  else v

/-- Open flags and `EAGAIN` with their Linux values; `long` is 64 bits wide. -/
def O_RDWR : Nat := 2
def O_CREAT : Nat := 64
def O_EXCL : Nat := 128
def O_NONBLOCK : Nat := 2048
def EAGAIN : Nat := 11

/-- Event bits of libev. -/
def EV_READ : Nat := 1
def EV_WRITE : Nat := 2
def EV_ERROR : Nat := 2147483648

/-! ## Data model -/

abbrev mqd_t := Int

def MQDES_INVALID : mqd_t := -1

structure mq_attr where
  mq_flags : Int
  mq_maxmsg : Int
  mq_msgsize : Int
  mq_curmsgs : Int
deriving DecidableEq, Repr

/-- The libev watcher embedded in the handle. -/
structure ev_io where
  active : Bool
  fd : Int
  events : Nat
deriving DecidableEq, Repr

def read_symbol : String := "messages"
def write_symbol : String := "drain"

/-- The fields of `class PosixMQ`.  `Emit` records whether the persistent
handle holds a function. -/
structure PosixMQ where
  mqdes : mqd_t
  mqattrs : mq_attr
  mqpollhandle : ev_io
  mqname : Option String
  Emit : Bool
  canread : Bool
  canwrite : Bool
deriving DecidableEq, Repr

/-- A handle together with the dispatcher's view of it: `watched` lists the
descriptors under which the loop links the handle's watcher. -/
structure State where
  obj : PosixMQ
  watched : List Int
deriving DecidableEq, Repr

/-- Calls made to the outside world, in the order they are made. -/
inductive Effect where
  | ev_io_stop
  | ev_io_start (fd : Int)
  | mq_close (d : mqd_t)
  | mq_open (name : String) (flags : Nat) (create : Option (Nat × mq_attr))
  | mq_getattr (d : mqd_t)
  | mq_send (d : mqd_t) (data : List Nat) (len : Nat) (priority : Nat)
  | mq_receive (d : mqd_t) (len : Nat)
  | mq_unlink (name : String)
  | Emit_New
  | Emit_Call (argv : String)
deriving DecidableEq, Repr

/-- What the operating system answers during one method call. -/
structure Env where
  mq_open : Int
  mq_close : Int
  mq_getattr : Option mq_attr
  mq_send : Int
  mq_receive : Int
  mq_receive_prio : Nat
  mq_unlink : Int
  errno : Nat
deriving DecidableEq, Repr

structure Res where
  st : State
  ret : Completion
  trace : List Effect

/-- Constructor `PosixMQ()`; `junk` is the unset attribute block. -/
def PosixMQ.new (junk : mq_attr) : PosixMQ :=
  { mqdes := MQDES_INVALID
    mqattrs := junk
    mqpollhandle := { active := false, fd := 0, events := 0 }
    mqname := none
    Emit := false
    canread := false
    canwrite := false }

def State.new (junk : mq_attr) : State :=
  { obj := PosixMQ.new junk, watched := [] }

/-! ## Dispatcher calls -/

def ev_io_stop (s : State) : State :=
  if s.obj.mqpollhandle.active then
    { obj := { s.obj with mqpollhandle := { s.obj.mqpollhandle with active := false } }
      watched := s.watched.erase s.obj.mqpollhandle.fd }
  else s

def ev_init (s : State) : State :=
  { s with obj := { s.obj with mqpollhandle := { s.obj.mqpollhandle with active := false } } }

def ev_io_set (s : State) (fd : Int) (events : Nat) : State :=
  { s with obj := { s.obj with mqpollhandle := { s.obj.mqpollhandle with fd := fd, events := events } } }

def ev_io_start (s : State) : State :=
  if s.obj.mqpollhandle.active then s
  else
    { obj := { s.obj with mqpollhandle := { s.obj.mqpollhandle with active := true } }
      watched := s.obj.mqpollhandle.fd :: s.watched }

/-- The call `mq_getattr(obj->mqdes, &(obj->mqattrs))` with its result unused:
the block is overwritten when the call succeeds and untouched when it fails. -/
def refresh (s : State) (env : Env) : State :=
  match env.mq_getattr with
  | some a => { s with obj := { s.obj with mqattrs := a } }
  | none => s

/-! ## Methods -/

def throwTypeError (s : State) (m : String) : Res :=
  { st := s, ret := .throw (.TypeError (.lit m)), trace := [] }

def throwOsError (s : State) (trace : List Effect) : Res :=
  { st := s, ret := .throw (.Error .uv_strerror), trace := trace }

/-- What `Open` has read from its argument once validation is over. -/
structure OpenConfig where
  doCreate : Bool
  name : String
  flags : Nat
  mode : Nat
  mqattrs : mq_attr
deriving DecidableEq, Repr

/-- Lines 77-137 of `Open`: argument validation.  With `create` the limits are
written into the handle's attribute block before anything is opened. -/
def Open_config (obj : PosixMQ) (args : List JsValue) : Except Exception OpenConfig :=
  if args.length ≠ 1 then
    .error (.TypeError (.lit "Expecting 1 argument"))
  else if !IsObject (arg args 0) then
    .error (.TypeError (.lit "Argument must be an object"))
  else
    let config := arg args 0
    if !IsUndefined (Get config "create") && !IsBoolean (Get config "create") then
      .error (.TypeError (.lit "'create' property must be a boolean"))
    else
      let doCreate := !IsUndefined (Get config "create") && BooleanValue (Get config "create")
      if !IsString (Get config "name") then
        .error (.TypeError (.lit "'name' property must be a string"))
      else
        let name := AsciiValue (Get config "name")
        let vmode := Get config "mode"
        if doCreate then
          if !IsUint32 vmode && !IsString vmode then
            .error (.TypeError (.lit "'mode' property must be a string or integer"))
          else
            let mode := if IsUint32 vmode then Uint32Value vmode
                        else strtoul8 (AsciiValue vmode) % 4294967296
            let vexcl := Get config "exclusive"
            let flags := if IsBoolean vexcl && BooleanValue vexcl
                         then O_RDWR ||| O_NONBLOCK ||| O_CREAT ||| O_EXCL
                         else O_RDWR ||| O_NONBLOCK ||| O_CREAT
            let vmax := Get config "maxmsgs"
            let vsize := Get config "msgsize"
            .ok { doCreate := true, name := name, flags := flags, mode := mode
                  mqattrs := { obj.mqattrs with
                    mq_maxmsg := if IsUint32 vmax then (Uint32Value vmax : Int) else 10
                    mq_msgsize := if IsUint32 vsize then (Uint32Value vsize : Int) else 8192 } }
        else
          .ok { doCreate := false, name := name, flags := O_RDWR ||| O_NONBLOCK, mode := 0
                mqattrs := obj.mqattrs }

/-- Lines 139-143 of `Open`: a descriptor that is still open is taken off the
dispatcher, closed (the result of `mq_close` is not looked at) and forgotten. -/
def Open_release (s : State) : State × List Effect :=
  if s.obj.mqdes ≠ MQDES_INVALID then
    ({ ev_io_stop s with obj := { (ev_io_stop s).obj with mqdes := MQDES_INVALID } },
      [.ev_io_stop, .mq_close s.obj.mqdes])
  else (s, [])

/-- Lines 156-174 of `Open`: what follows a successful `mq_open` and
`mq_getattr`, the latter having stored `a`. -/
def Open_finish (s : State) (name : String) (a : mq_attr) : State × List Effect :=
  let bind := s.obj.mqname.isNone
  let s1 : State := { s with obj := { s.obj with
    mqattrs := a
    Emit := if bind then true else s.obj.Emit
    mqname := some name
    canread := !decide (a.mq_curmsgs > 0)
    canwrite := !decide (a.mq_curmsgs < a.mq_maxmsg) } }
  (ev_io_start (ev_io_set (ev_init s1) s1.obj.mqdes (EV_READ ||| EV_WRITE)),
    (if bind then [.Emit_New] else []) ++ [.ev_io_start s1.obj.mqdes])

/-- Lines 139-148 of `Open`: with the validated configuration written into
the attribute block, release the previous descriptor and store what `mq_open`
returns. -/
def Open_reopen (s : State) (c : OpenConfig) (env : Env) : State × List Effect :=
  let r := Open_release { s with obj := { s.obj with mqattrs := c.mqattrs } }
  ({ r.1 with obj := { r.1.obj with mqdes := env.mq_open } },
    r.2 ++ [.mq_open c.name c.flags (if c.doCreate then some (c.mode, c.mqattrs) else none)])

def Open (s : State) (args : List JsValue) (env : Env) : Res :=
  match Open_config s.obj args with
  | .error e => { st := s, ret := .throw e, trace := [] }
  | .ok c =>
    if (Open_reopen s c env).1.obj.mqdes = MQDES_INVALID then
      throwOsError (Open_reopen s c env).1 (Open_reopen s c env).2
    else
      match env.mq_getattr with
      | none =>
        throwOsError (Open_reopen s c env).1
          ((Open_reopen s c env).2 ++ [.mq_getattr (Open_reopen s c env).1.obj.mqdes])
      | some a =>
        { st := (Open_finish (Open_reopen s c env).1 c.name a).1
          ret := .ret .undefined
          trace := (Open_reopen s c env).2 ++ [.mq_getattr (Open_reopen s c env).1.obj.mqdes]
                    ++ (Open_finish (Open_reopen s c env).1 c.name a).2 }

/-- The per-tick callback.  `Emit->Call` is the trace event `Emit_Call`. -/
def poll_cb (s : State) (revents : Nat) (env : Env) : State × List Effect :=
  if revents &&& EV_ERROR ≠ 0 then (s, [])
  else
    let s1 := refresh s env
    let fireRead := decide (revents &&& EV_READ ≠ 0) && !s1.obj.canread
    let fireWrite := decide (revents &&& EV_WRITE ≠ 0) && !s1.obj.canwrite
    let canread := if fireRead then true
                   else if revents &&& EV_READ = 0 then false else s1.obj.canread
    let canwrite := if fireWrite then true
                    else if revents &&& EV_WRITE = 0 then false else s1.obj.canwrite
    ({ s1 with obj := { s1.obj with canread := canread, canwrite := canwrite } },
      [.mq_getattr s.obj.mqdes]
        ++ (if fireRead then [.Emit_Call read_symbol] else [])
        ++ (if fireWrite then [.Emit_Call write_symbol] else []))

def Close (s : State) (env : Env) : Res :=
  if s.obj.mqdes = MQDES_INVALID then
    { st := s, ret := .throw (.Error (.lit "Queue already closed")), trace := [] }
  else if env.mq_close = -1 then
    throwOsError (ev_io_stop s) [.ev_io_stop, .mq_close s.obj.mqdes]
  else
    { st := { ev_io_stop s with obj := { (ev_io_stop s).obj with mqdes := MQDES_INVALID } }
      ret := .ret .undefined
      trace := [.ev_io_stop, .mq_close s.obj.mqdes] }

def Unlink (s : State) (env : Env) : Res :=
  match s.obj.mqname with
  | none => { st := s, ret := .throw (.Error (.lit "Nothing to unlink")), trace := [] }
  | some name =>
    if env.mq_unlink = -1 then throwOsError s [.mq_unlink name]
    else
      { st := { s with obj := { s.obj with mqname := none } }
        ret := .ret .undefined
        trace := [.mq_unlink name] }

/-- Lines 253-269 of `Send`: the priority the call will use, or `none` when
the second argument is rejected. -/
def Send_priority (args : List JsValue) : Option Nat :=
  if args.length ≥ 2 then
    if IsUint32 (arg args 1) && decide (Uint32Value (arg args 1) < 32) then
      some (Uint32Value (arg args 1))
    else none
  else some 0

def Send (s : State) (args : List JsValue) (env : Env) : Res :=
  if args.length < 1 then throwTypeError s "Expected at least 1 argument"
  else if !Buffer_HasInstance (arg args 0) then
    throwTypeError s "First argument must be a Buffer"
  else
    match Send_priority args with
    | none => throwTypeError s "Second argument must be an integer 0 <= n < 32"
    | some priority =>
      let sent : Effect :=
        .mq_send s.obj.mqdes (Buffer_Data (arg args 0)) (Buffer_Length (arg args 0)) priority
      if env.mq_send = -1 then
        if env.errno ≠ EAGAIN then throwOsError s [sent]
        else
          { st := refresh s env
            ret := .ret (Boolean_New false)
            trace := [sent, .mq_getattr s.obj.mqdes] }
      else
        { st := refresh s env
          ret := .ret (Boolean_New true)
          trace := [sent, .mq_getattr s.obj.mqdes] }

def Receive (s : State) (args : List JsValue) (env : Env) : Res :=
  if args.length < 1 then throwTypeError s "Expected at least 1 argument"
  else if !Buffer_HasInstance (arg args 0) then
    throwTypeError s "First argument must be a Buffer"
  else
    let retTuple := decide (args.length > 1) && BooleanValue (arg args 1)
    let received : Effect := .mq_receive s.obj.mqdes (Buffer_Length (arg args 0))
    if env.mq_receive = -1 then
      if env.errno ≠ EAGAIN then throwOsError s [received]
      else
        { st := refresh s env
          ret := .ret (Boolean_New false)
          trace := [received, .mq_getattr s.obj.mqdes] }
    else
      { st := refresh s env
        ret := .ret (if !retTuple then Integer_New env.mq_receive
                     else .array [Integer_New env.mq_receive, Integer_New env.mq_receive_prio])
        trace := [received, .mq_getattr s.obj.mqdes] }

def MsgsizeGetter (s : State) (env : Env) : Res :=
  { st := refresh s env
    ret := .ret (Integer_New (refresh s env).obj.mqattrs.mq_msgsize)
    trace := [.mq_getattr s.obj.mqdes] }

def MaxmsgsGetter (s : State) (env : Env) : Res :=
  { st := refresh s env
    ret := .ret (Integer_New (refresh s env).obj.mqattrs.mq_maxmsg)
    trace := [.mq_getattr s.obj.mqdes] }

def CurmsgsGetter (s : State) (env : Env) : Res :=
  { st := refresh s env
    ret := .ret (Integer_New (refresh s env).obj.mqattrs.mq_curmsgs)
    trace := [.mq_getattr s.obj.mqdes] }

def IsfullGetter (s : State) (env : Env) : Res :=
  { st := refresh s env
    ret := .ret (Boolean_New (decide ((refresh s env).obj.mqattrs.mq_curmsgs
                                        = (refresh s env).obj.mqattrs.mq_maxmsg)))
    trace := [.mq_getattr s.obj.mqdes] }

/-! ## Runs -/

/-- One interaction with a handle: a method call by the caller, or a tick of
the dispatcher. -/
inductive Op where
  | Open (args : List JsValue) (env : Env)
  | Close (env : Env)
  | Unlink (env : Env)
  | Send (args : List JsValue) (env : Env)
  | Receive (args : List JsValue) (env : Env)
  | MsgsizeGetter (env : Env)
  | MaxmsgsGetter (env : Env)
  | CurmsgsGetter (env : Env)
  | IsfullGetter (env : Env)
  | tick (revents : Nat) (env : Env)

/-- The dispatcher calls `poll_cb` only for a watcher it has linked. -/
def delivered (s : State) : Bool := !s.watched.isEmpty

def step (s : State) : Op → Res
  | .Open args env => Open s args env
  | .Close env => Close s env
  | .Unlink env => Unlink s env
  | .Send args env => Send s args env
  | .Receive args env => Receive s args env
  | .MsgsizeGetter env => MsgsizeGetter s env
  | .MaxmsgsGetter env => MaxmsgsGetter s env
  | .CurmsgsGetter env => CurmsgsGetter s env
  | .IsfullGetter env => IsfullGetter s env
  | .tick revents env =>
    if delivered s then
      { st := (poll_cb s revents env).1, ret := .ret .undefined
        trace := (poll_cb s revents env).2 }
    else { st := s, ret := .ret .undefined, trace := [] }

/-- State after a sequence of interactions. -/
def run (s : State) : List Op → State
  | [] => s
  | op :: ops => run (step s op).st ops

/-- Everything the handle did to the outside world along a sequence. -/
def runTrace (s : State) : List Op → List Effect
  | [] => []
  | op :: ops => (step s op).trace ++ runTrace (step s op).st ops

/-- One tick as the dispatcher delivers it: the event mask, and the answers
of the operating system during the callback. -/
structure Tick where
  revents : Nat
  env : Env

/-- Level of the readable channel in a tick. -/
def readableNow (t : Tick) : Bool := decide (t.revents &&& EV_READ ≠ 0)

/-- Level of the writable channel in a tick. -/
def writableNow (t : Tick) : Bool := decide (t.revents &&& EV_WRITE ≠ 0)

/-- The trace of each call of `poll_cb` along a sequence of ticks. -/
def pollTraces (s : State) : List Tick → List (List Effect)
  | [] => []
  | t :: ts => (poll_cb s t.revents t.env).2 :: pollTraces (poll_cb s t.revents t.env).1 ts

/-- Rising edges of a sequence of levels that follows the level `prev`. -/
def risingEdges (prev : Bool) : List Bool → List Nat
  | [] => []
  | l :: ls => (if l && !prev then 1 else 0) :: risingEdges l ls

/-- Whether some `Open` of the sequence returned normally. -/
def openSucceeded (s : State) : List Op → Bool
  | [] => false
  | .Open args env :: ops =>
    (Open s args env).ret.returned || openSucceeded (Open s args env).st ops
  | op :: ops => openSucceeded (step s op).st ops

/-- Interactions after which a descriptor the handle holds is still linked:
an `Open` whose attribute fetch does not fail after a successful `mq_open`,
a `Close` whose `mq_close` does not fail, and everything else. -/
def Op.orderly : Op → Bool
  | .Open _ env => decide (env.mq_open = MQDES_INVALID) || env.mq_getattr.isSome
  | .Close env => decide (env.mq_close ≠ -1)
  | _ => true

/-- The dispatcher links the watcher exactly when the watcher is active, under
the watcher's descriptor, and an active watcher watches the handle's valid
descriptor. -/
def Linked (s : State) : Prop :=
  s.watched = (if s.obj.mqpollhandle.active then [s.obj.mqpollhandle.fd] else []) ∧
  (s.obj.mqpollhandle.active = true →
    s.obj.mqdes ≠ MQDES_INVALID ∧ s.obj.mqpollhandle.fd = s.obj.mqdes)

/-! ## Sample inputs -/

def sampleAttr : mq_attr := { mq_flags := 2048, mq_maxmsg := 10, mq_msgsize := 8192, mq_curmsgs := 0 }

/-- Every call succeeds; the queue is empty with room for 10 messages. -/
def envOk : Env :=
  { mq_open := 3, mq_close := 0, mq_getattr := some sampleAttr, mq_send := 0
    mq_receive := 5, mq_receive_prio := 7, mq_unlink := 0, errno := 0 }

/-- Every call fails, with an error other than `EAGAIN`. -/
def envFail : Env :=
  { mq_open := -1, mq_close := -1, mq_getattr := none, mq_send := -1
    mq_receive := -1, mq_receive_prio := 0, mq_unlink := -1, errno := 9 }

/-- Every call that can block reports `EAGAIN`. -/
def envAgain : Env :=
  { mq_open := 3, mq_close := 0, mq_getattr := some sampleAttr, mq_send := -1
    mq_receive := -1, mq_receive_prio := 0, mq_unlink := 0, errno := EAGAIN }

/-- The argument `{ name: "/q" }`. -/
def cfgAttach : JsValue := .object [("name", .string "/q")]

/-- The argument `{ name: "/q", create: true, mode: "0600", maxmsgs: 10 }`. -/
def cfgCreate : JsValue :=
  .object [("name", .string "/q"), ("create", .boolean true), ("mode", .string "0600"),
           ("maxmsgs", .number (.int 10))]

/-- A newly constructed handle. -/
def fresh : State := State.new { mq_flags := 0, mq_maxmsg := 0, mq_msgsize := 0, mq_curmsgs := 0 }

/-- The queue opens as descriptor 3, and the attribute fetch then fails. -/
def envNoAttr : Env :=
  { mq_open := 3, mq_close := 0, mq_getattr := none, mq_send := 0
    mq_receive := 5, mq_receive_prio := 7, mq_unlink := 0, errno := 9 }

/-- The message of the usage error `Send` throws for its second argument. -/
def priorityMessage : Msg := .lit "Second argument must be an integer 0 <= n < 32"

/-- The handle's descriptor cannot be released: `mq_close` fails. -/
def envCloseFails : Env :=
  { mq_open := 3, mq_close := -1, mq_getattr := some sampleAttr, mq_send := 0
    mq_receive := 5, mq_receive_prio := 7, mq_unlink := 0, errno := 9 }

/-- The name cannot be removed: `mq_unlink` fails. -/
def envUnlinkFails : Env :=
  { mq_open := 3, mq_close := 0, mq_getattr := some sampleAttr, mq_send := 0
    mq_receive := 5, mq_receive_prio := 7, mq_unlink := -1, errno := 13 }

/-- Repeated `Unlink` calls, each with its own answers. -/
def unlinks (s : State) : List Env → State
  | [] => s
  | env :: envs => unlinks (Unlink s env).st envs

/-- Every descriptor the handle holds is watched by the dispatcher. -/
def Registered (s : State) : Prop :=
  s.obj.mqdes ≠ MQDES_INVALID → s.obj.mqpollhandle.active = true

/-! ## Verification -/

/-! ### Edge detection (`poll_cb`) -/

theorem refresh_canread (s : State) (env : Env) :
    (refresh s env).obj.canread = s.obj.canread := by
  unfold refresh; split <;> rfl

theorem refresh_canwrite (s : State) (env : Env) :
    (refresh s env).obj.canwrite = s.obj.canwrite := by
  unfold refresh; split <;> rfl

theorem poll_cb_read (s : State) (t : Tick) (h : t.revents &&& EV_ERROR = 0) :
    (poll_cb s t.revents t.env).2.count (.Emit_Call read_symbol)
        = (if readableNow t && !s.obj.canread then 1 else 0)
      ∧ (poll_cb s t.revents t.env).1.obj.canread = readableNow t := by
  unfold poll_cb readableNow
  simp only [h, ne_eq, not_true_eq_false, if_false, refresh_canread, refresh_canwrite]
  by_cases hr : t.revents &&& EV_READ = 0 <;> by_cases hw : t.revents &&& EV_WRITE = 0 <;>
    cases hc : s.obj.canread <;> cases hd : s.obj.canwrite <;>
    simp [hr, hw, read_symbol, write_symbol]

theorem poll_cb_write (s : State) (t : Tick) (h : t.revents &&& EV_ERROR = 0) :
    (poll_cb s t.revents t.env).2.count (.Emit_Call write_symbol)
        = (if writableNow t && !s.obj.canwrite then 1 else 0)
      ∧ (poll_cb s t.revents t.env).1.obj.canwrite = writableNow t := by
  unfold poll_cb writableNow
  simp only [h, ne_eq, not_true_eq_false, if_false, refresh_canread, refresh_canwrite]
  by_cases hr : t.revents &&& EV_READ = 0 <;> by_cases hw : t.revents &&& EV_WRITE = 0 <;>
    cases hc : s.obj.canread <;> cases hd : s.obj.canwrite <;>
    simp [hr, hw, read_symbol, write_symbol]

theorem pollTraces_read (ticks : List Tick) : ∀ s : State,
    (∀ t ∈ ticks, t.revents &&& EV_ERROR = 0) →
    (pollTraces s ticks).map (fun tr => tr.count (.Emit_Call read_symbol))
      = risingEdges s.obj.canread (ticks.map readableNow) := by
  induction ticks with
  | nil => intro s _; rfl
  | cons t ts ih =>
    intro s h
    have ht := poll_cb_read s t (h t (List.mem_cons_self _ _))
    have := ih (poll_cb s t.revents t.env).1 (fun u hu => h u (List.mem_cons_of_mem _ hu))
    simp only [pollTraces, List.map_cons, risingEdges, this, ht.1, ht.2]

theorem pollTraces_write (ticks : List Tick) : ∀ s : State,
    (∀ t ∈ ticks, t.revents &&& EV_ERROR = 0) →
    (pollTraces s ticks).map (fun tr => tr.count (.Emit_Call write_symbol))
      = risingEdges s.obj.canwrite (ticks.map writableNow) := by
  induction ticks with
  | nil => intro s _; rfl
  | cons t ts ih =>
    intro s h
    have ht := poll_cb_write s t (h t (List.mem_cons_self _ _))
    have := ih (poll_cb s t.revents t.env).1 (fun u hu => h u (List.mem_cons_of_mem _ hu))
    simp only [pollTraces, List.map_cons, risingEdges, this, ht.1, ht.2]

theorem risingEdges_getD (ls : List Bool) : ∀ (prev : Bool) (i : Nat), i < ls.length →
    (risingEdges prev ls).getD i 0
      = if ls.getD i false = true ∧ (if i = 0 then prev else ls.getD (i - 1) false) = false
        then 1 else 0 := by
  induction ls with
  | nil => intro prev i h; simp at h
  | cons l ls ih =>
    intro prev i h
    cases i with
    | zero => cases l <;> cases prev <;> simp [risingEdges]
    | succ k =>
      have hk : k < ls.length := by simpa using h
      rw [risingEdges, List.getD_cons_succ, ih l k hk]
      cases k with
      | zero => simp
      | succ j => simp

/-- Fires of one channel, tick by tick, for a handle whose flag starts false. -/
theorem channel_fires (e : Effect) (levels : List Bool) (traces : List (List Effect))
    (h : traces.map (fun tr => tr.count e) = risingEdges false levels) :
    (∀ i, i < levels.length →
        (traces.getD i []).count e
          = if levels.getD i false = true ∧ (i = 0 ∨ levels.getD (i - 1) false = false)
            then 1 else 0)
      ∧ (levels = [true, true] → traces.map (fun tr => tr.count e) = [1, 0])
      ∧ (levels = [true, false, true] → traces.map (fun tr => tr.count e) = [1, 0, 1]) := by
  refine ⟨?_, ?_, ?_⟩
  · intro i hi
    have h1 : (traces.getD i []).count e = (traces.map (fun tr => tr.count e)).getD i 0 := by
      have := List.getD_map (l := traces) (n := i) (d := ([] : List Effect))
        (fun tr : List Effect => tr.count e)
      simpa using this.symm
    rw [h1, h, risingEdges_getD levels false i hi]
    by_cases h0 : i = 0
    · simp [h0]
    · simp [h0]
  · intro hl; rw [h, hl]; rfl
  · intro hl; rw [h, hl]; rfl

/-- C1: along any sequence of ticks without the error flag, delivered to a
handle whose channel flag is false at the start, `poll_cb` calls the sink with
the channel's tag exactly once on a tick whose level is ready and that is the
first tick or directly follows a not-ready tick, and not at all on any other
tick; this for the readable channel (`canread`, tag "messages") and for the
writable channel (`canwrite`, tag "drain").  In particular the levels
(ready, ready) fire 1 then 0 times and (ready, not ready, ready) fire 1, 0, 1. -/
theorem poll_cb_fires_on_rising_edges (s : State) (ticks : List Tick)
    (hok : ∀ t ∈ ticks, t.revents &&& EV_ERROR = 0) :
    (s.obj.canread = false →
      (∀ i, i < ticks.length →
        ((pollTraces s ticks).getD i []).count (.Emit_Call read_symbol)
          = if (ticks.map readableNow).getD i false = true ∧
               (i = 0 ∨ (ticks.map readableNow).getD (i - 1) false = false)
            then 1 else 0)
      ∧ (ticks.map readableNow = [true, true] →
          (pollTraces s ticks).map (fun tr => tr.count (.Emit_Call read_symbol)) = [1, 0])
      ∧ (ticks.map readableNow = [true, false, true] →
          (pollTraces s ticks).map (fun tr => tr.count (.Emit_Call read_symbol)) = [1, 0, 1]))
    ∧ (s.obj.canwrite = false →
      (∀ i, i < ticks.length →
        ((pollTraces s ticks).getD i []).count (.Emit_Call write_symbol)
          = if (ticks.map writableNow).getD i false = true ∧
               (i = 0 ∨ (ticks.map writableNow).getD (i - 1) false = false)
            then 1 else 0)
      ∧ (ticks.map writableNow = [true, true] →
          (pollTraces s ticks).map (fun tr => tr.count (.Emit_Call write_symbol)) = [1, 0])
      ∧ (ticks.map writableNow = [true, false, true] →
          (pollTraces s ticks).map (fun tr => tr.count (.Emit_Call write_symbol)) = [1, 0, 1])) := by
  constructor
  · intro hc
    have h := pollTraces_read ticks s hok
    rw [hc] at h
    have := channel_fires (.Emit_Call read_symbol) (ticks.map readableNow) (pollTraces s ticks) h
    simpa using this
  · intro hc
    have h := pollTraces_write ticks s hok
    rw [hc] at h
    have := channel_fires (.Emit_Call write_symbol) (ticks.map writableNow) (pollTraces s ticks) h
    simpa using this

/-- Witness of C1: a new handle and the ticks readable+writable, neither,
readable. -/
theorem poll_cb_fires_on_rising_edges_witness :
    (∀ t ∈ [Tick.mk 3 envOk, Tick.mk 0 envOk, Tick.mk 1 envOk], t.revents &&& EV_ERROR = 0)
      ∧ fresh.obj.canread = false
      ∧ [Tick.mk 3 envOk, Tick.mk 0 envOk, Tick.mk 1 envOk].map readableNow = [true, false, true]
      ∧ (pollTraces fresh [Tick.mk 3 envOk, Tick.mk 0 envOk, Tick.mk 1 envOk]).map
          (fun tr => tr.count (.Emit_Call read_symbol)) = [1, 0, 1] :=
  ⟨by decide, rfl, by decide,
    ((poll_cb_fires_on_rising_edges fresh [Tick.mk 3 envOk, Tick.mk 0 envOk, Tick.mk 1 envOk]
      (by decide)).1 rfl).2.2 (by decide)⟩

/-! ### `Open` -/

theorem Open_finish_obj (s : State) (name : String) (a : mq_attr) :
    (Open_finish s name a).1.obj.mqattrs = a
      ∧ (Open_finish s name a).1.obj.mqdes = s.obj.mqdes
      ∧ (Open_finish s name a).1.obj.mqname = some name
      ∧ (Open_finish s name a).1.obj.canread = !decide (a.mq_curmsgs > 0)
      ∧ (Open_finish s name a).1.obj.canwrite = !decide (a.mq_curmsgs < a.mq_maxmsg)
      ∧ (Open_finish s name a).1.obj.mqpollhandle.active = true
      ∧ (Open_finish s name a).1.obj.mqpollhandle.fd = s.obj.mqdes
      ∧ (Open_finish s name a).1.watched = s.obj.mqdes :: s.watched := by
  simp [Open_finish, ev_io_start, ev_io_set, ev_init]

/-- C2, as amended: after every `Open` that returns normally, the attribute
block holds the attributes `a` fetched by that `Open`, and the edge state is
`canread = !(a.mq_curmsgs > 0)`, `canwrite = !(a.mq_curmsgs < a.mq_maxmsg)`;
so an empty queue with room for 10 messages leaves `canread = true` and
`canwrite = false`. -/
theorem Open_success_edge_state (s : State) (args : List JsValue) (env : Env)
    (h : (Open s args env).ret.returned = true) :
    ∃ a, env.mq_getattr = some a
      ∧ (Open s args env).st.obj.mqattrs = a
      ∧ (Open s args env).st.obj.canread = !decide (a.mq_curmsgs > 0)
      ∧ (Open s args env).st.obj.canwrite = !decide (a.mq_curmsgs < a.mq_maxmsg)
      ∧ (a.mq_curmsgs = 0 → a.mq_maxmsg = 10 →
          (Open s args env).st.obj.canread = true ∧ (Open s args env).st.obj.canwrite = false) := by
  unfold Open at h ⊢
  cases hc : Open_config s.obj args with
  | error e => simp [hc, Completion.returned] at h
  | ok c =>
    simp only [hc] at h ⊢
    by_cases hd : (Open_reopen s c env).1.obj.mqdes = MQDES_INVALID
    · simp [hd, throwOsError, Completion.returned] at h
    · simp only [hd, if_false] at h ⊢
      cases ha : env.mq_getattr with
      | none => simp [ha, throwOsError, Completion.returned] at h
      | some a =>
        simp only [ha]
        have hf := Open_finish_obj (Open_reopen s c env).1 c.name a
        refine ⟨a, rfl, hf.1, hf.2.2.2.1, hf.2.2.2.2.1, ?_⟩
        intro h0 h10
        rw [hf.2.2.2.1, hf.2.2.2.2.1, h0, h10]
        decide

/-- Witness of C2 (amended): creating the queue on a new handle. -/
theorem Open_success_edge_state_witness :
    (Open fresh [cfgCreate] envOk).ret.returned = true
      ∧ ∃ a, envOk.mq_getattr = some a
        ∧ (Open fresh [cfgCreate] envOk).st.obj.mqattrs = a
        ∧ (Open fresh [cfgCreate] envOk).st.obj.canread = !decide (a.mq_curmsgs > 0)
        ∧ (Open fresh [cfgCreate] envOk).st.obj.canwrite = !decide (a.mq_curmsgs < a.mq_maxmsg)
        ∧ (a.mq_curmsgs = 0 → a.mq_maxmsg = 10 →
            (Open fresh [cfgCreate] envOk).st.obj.canread = true
              ∧ (Open fresh [cfgCreate] envOk).st.obj.canwrite = false) :=
  ⟨by decide, Open_success_edge_state fresh [cfgCreate] envOk (by decide)⟩

/-- Counterexample to C2 as stated: creating an empty queue with `maxmsgs = 10`
on a new handle succeeds and leaves `canread = true`, `canwrite = false`,
which is not `canread = (curmsgs > 0)`, `canwrite = (curmsgs < maxmsgs)`. -/
theorem Open_empty_queue_edge_state :
    (Open fresh [cfgCreate] envOk).ret.returned = true
      ∧ (Open fresh [cfgCreate] envOk).st.obj.mqattrs.mq_curmsgs = 0
      ∧ (Open fresh [cfgCreate] envOk).st.obj.mqattrs.mq_maxmsg = 10
      ∧ (Open fresh [cfgCreate] envOk).st.obj.canread = true
      ∧ (Open fresh [cfgCreate] envOk).st.obj.canwrite = false
      ∧ ¬ ((Open fresh [cfgCreate] envOk).st.obj.canread
              = decide ((Open fresh [cfgCreate] envOk).st.obj.mqattrs.mq_curmsgs > 0)
            ∧ (Open fresh [cfgCreate] envOk).st.obj.canwrite
              = decide ((Open fresh [cfgCreate] envOk).st.obj.mqattrs.mq_curmsgs
                          < (Open fresh [cfgCreate] envOk).st.obj.mqattrs.mq_maxmsg)) := by
  decide

/-- C3 at its failing input: on a new handle, `open({name: "/q"})` where
`mq_open` returns descriptor 3 and the attribute fetch that follows fails
throws the OS error, yet the handle keeps descriptor 3: it is not the invalid
sentinel, it was never closed, and the dispatcher does not watch it. -/
theorem Open_getattr_failure_keeps_descriptor :
    Open_config fresh.obj [cfgAttach]
        = .ok { doCreate := false, name := "/q", flags := 2050, mode := 0, mqattrs := fresh.obj.mqattrs }
      ∧ (Open fresh [cfgAttach] envNoAttr).ret = .throw (.Error .uv_strerror)
      ∧ (Open fresh [cfgAttach] envNoAttr).trace = [.mq_open "/q" 2050 none, .mq_getattr 3]
      ∧ (Open fresh [cfgAttach] envNoAttr).st.obj.mqdes = 3
      ∧ (Open fresh [cfgAttach] envNoAttr).st.obj.mqdes ≠ MQDES_INVALID
      ∧ (Open fresh [cfgAttach] envNoAttr).st.watched = [] := by
  refine ⟨rfl, rfl, by decide, by decide, by decide, by decide⟩

/-! ### `Send` and `Receive` -/

theorem refresh_obj (s : State) (env : Env) :
    (refresh s env).obj.mqattrs = env.mq_getattr.getD s.obj.mqattrs
      ∧ (refresh s env).obj.mqdes = s.obj.mqdes
      ∧ (refresh s env).obj.mqpollhandle = s.obj.mqpollhandle
      ∧ (refresh s env).obj.mqname = s.obj.mqname
      ∧ (refresh s env).obj.Emit = s.obj.Emit
      ∧ (refresh s env).watched = s.watched := by
  unfold refresh; split <;> simp [*]

/-- C4: a `Send` whose arguments pass validation (a buffer first, and a
priority `p` accepted by the check) returns `true` when `mq_send` succeeds,
returns `false` when it fails with `EAGAIN`, and throws the OS error when it
fails otherwise.  In the first two cases the attributes are fetched again
after the enqueue and the block holds what the fetch returned (it is left as
it was when the fetch itself fails); in the third case nothing follows the
enqueue and the whole handle state, descriptor and attribute block included,
is what it was before the call. -/
theorem Send_outcomes (s : State) (args : List JsValue) (env : Env) (p : Nat)
    (hlen : 1 ≤ args.length) (hbuf : Buffer_HasInstance (arg args 0) = true)
    (hp : Send_priority args = some p) :
    (env.mq_send ≠ -1 →
        (Send s args env).ret = .ret (.boolean true)
          ∧ (Send s args env).trace
              = [.mq_send s.obj.mqdes (Buffer_Data (arg args 0)) (Buffer_Length (arg args 0)) p,
                 .mq_getattr s.obj.mqdes]
          ∧ (Send s args env).st = refresh s env
          ∧ (Send s args env).st.obj.mqattrs = env.mq_getattr.getD s.obj.mqattrs
          ∧ (Send s args env).st.obj.mqdes = s.obj.mqdes)
      ∧ (env.mq_send = -1 → env.errno = EAGAIN →
        (Send s args env).ret = .ret (.boolean false)
          ∧ (Send s args env).trace
              = [.mq_send s.obj.mqdes (Buffer_Data (arg args 0)) (Buffer_Length (arg args 0)) p,
                 .mq_getattr s.obj.mqdes]
          ∧ (Send s args env).st = refresh s env
          ∧ (Send s args env).st.obj.mqattrs = env.mq_getattr.getD s.obj.mqattrs
          ∧ (Send s args env).st.obj.mqdes = s.obj.mqdes)
      ∧ (env.mq_send = -1 → env.errno ≠ EAGAIN →
        (Send s args env).ret = .throw (.Error .uv_strerror)
          ∧ (Send s args env).trace
              = [.mq_send s.obj.mqdes (Buffer_Data (arg args 0)) (Buffer_Length (arg args 0)) p]
          ∧ (Send s args env).st = s) := by
  have hl : ¬ args.length < 1 := by omega
  have hr := refresh_obj s env
  refine ⟨?_, ?_, ?_⟩
  · intro h1
    simp [Send, hl, hbuf, hp, h1, Boolean_New, hr.1, hr.2.1]
  · intro h1 h2
    simp [Send, hl, hbuf, hp, h1, h2, Boolean_New, hr.1, hr.2.1]
  · intro h1 h2
    simp [Send, hl, hbuf, hp, h1, h2, throwOsError]

/-- Witness of C4: sending three bytes at priority 5 on an open handle. -/
theorem Send_outcomes_witness :
    1 ≤ [JsValue.buffer [1, 2, 3], JsValue.number (.int 5)].length
      ∧ Buffer_HasInstance (arg [.buffer [1, 2, 3], .number (.int 5)] 0) = true
      ∧ Send_priority [.buffer [1, 2, 3], .number (.int 5)] = some 5
      ∧ envOk.mq_send ≠ -1
      ∧ (Send (Open fresh [cfgCreate] envOk).st [.buffer [1, 2, 3], .number (.int 5)] envOk).ret
            = .ret (.boolean true)
      ∧ (Send (Open fresh [cfgCreate] envOk).st [.buffer [1, 2, 3], .number (.int 5)] envOk).trace
            = [.mq_send 3 [1, 2, 3] 3 5, .mq_getattr 3] :=
  ⟨by decide, by decide, by decide, by decide,
    ((Send_outcomes (Open fresh [cfgCreate] envOk).st [.buffer [1, 2, 3], .number (.int 5)]
        envOk 5 (by decide) (by decide) (by decide)).1 (by decide)).1,
    ((Send_outcomes (Open fresh [cfgCreate] envOk).st [.buffer [1, 2, 3], .number (.int 5)]
        envOk 5 (by decide) (by decide) (by decide)).1 (by decide)).2.1⟩

theorem small_uint_iff (v : JsValue) :
    (IsUint32 v && decide (Uint32Value v < 32)) = true
      ↔ ∃ n : Nat, n < 32 ∧ v = .number (.int (n : Int)) := by
  constructor
  · intro h
    cases v with
    | number x =>
      cases x with
      | int i =>
        simp only [IsUint32, Uint32Value, Bool.and_eq_true, decide_eq_true_eq] at h
        refine ⟨i.toNat, by omega, ?_⟩
        have : ((i.toNat : Nat) : Int) = i := by omega
        rw [this]
      | _ => simp [IsUint32] at h
    | _ => simp [IsUint32] at h
  · rintro ⟨n, hn, rfl⟩
    simp only [IsUint32, Uint32Value, Bool.and_eq_true, decide_eq_true_eq]
    omega

theorem Send_priority_one (b : JsValue) : Send_priority [b] = some 0 := by
  simp [Send_priority]

theorem Send_priority_two (b v : JsValue) (tl : List JsValue) :
    Send_priority (b :: v :: tl)
      = if (IsUint32 v && decide (Uint32Value v < 32)) = true then some (Uint32Value v)
        else none := by
  simp [Send_priority, arg]

/-- C5: for every handle state and every buffer, `Send` throws the priority
usage error exactly when a second argument is supplied that is not an unsigned
integer below 32 (so for every priority of 32 or more); when it throws, no call
at all is made (neither the enqueue nor the attribute fetch) and the state is
unchanged; when the second argument is an integer `n < 32` the enqueue is the
first call made and carries priority `n`, and when it is omitted the enqueue
carries priority 0. -/
theorem Send_priority_check (s : State) (data : List Nat) (rest : List JsValue) (env : Env) :
    ((Send s (.buffer data :: rest) env).ret = .throw (.TypeError priorityMessage)
        ↔ ∃ v tl, rest = v :: tl ∧ ¬ ∃ n : Nat, n < 32 ∧ v = .number (.int (n : Int)))
      ∧ ((Send s (.buffer data :: rest) env).ret = .throw (.TypeError priorityMessage) →
          (Send s (.buffer data :: rest) env).st = s
            ∧ (Send s (.buffer data :: rest) env).trace = [])
      ∧ (∀ (n : Nat) (tl : List JsValue), 32 ≤ n → rest = .number (.int (n : Int)) :: tl →
          (Send s (.buffer data :: rest) env).ret = .throw (.TypeError priorityMessage))
      ∧ (∀ (n : Nat) (tl : List JsValue), n < 32 → rest = .number (.int (n : Int)) :: tl →
          (Send s (.buffer data :: rest) env).trace.head?
            = some (.mq_send s.obj.mqdes data data.length n))
      ∧ (rest = [] →
          (Send s (.buffer data :: rest) env).trace.head?
            = some (.mq_send s.obj.mqdes data data.length 0)) := by
  have key : ∀ v tl, rest = v :: tl → (¬ ∃ n : Nat, n < 32 ∧ v = .number (.int (n : Int))) →
      Send s (.buffer data :: rest) env
        = { st := s, ret := .throw (.TypeError priorityMessage), trace := [] } := by
    intro v tl hr hv
    have h2 : ¬ (IsUint32 v && decide (Uint32Value v < 32)) = true :=
      fun h => hv ((small_uint_iff v).1 h)
    subst hr
    simp [Send, arg, Buffer_HasInstance, Send_priority_two, h2, throwTypeError, priorityMessage]
  have good : ∀ q, Send_priority (.buffer data :: rest) = some q →
      (Send s (.buffer data :: rest) env).ret ≠ .throw (.TypeError priorityMessage)
        ∧ (Send s (.buffer data :: rest) env).trace.head?
            = some (.mq_send s.obj.mqdes data data.length q) := by
    intro q hq
    by_cases h1 : env.mq_send = -1 <;> by_cases h2 : env.errno = EAGAIN <;>
      simp [Send, arg, Buffer_HasInstance, Buffer_Data, Buffer_Length, hq, h1, h2,
        throwOsError, priorityMessage]
  have small : ∀ (n : Nat) tl, n < 32 → rest = .number (.int (n : Int)) :: tl →
      Send_priority (.buffer data :: rest) = some n := by
    intro n tl hn hr
    subst hr
    have h2 : (IsUint32 (.number (.int (n : Int)))
        && decide (Uint32Value (.number (.int (n : Int))) < 32)) = true :=
      (small_uint_iff _).2 ⟨n, hn, rfl⟩
    rw [Send_priority_two, if_pos h2]
    have h3 : Uint32Value (.number (.int (n : Int))) = n := by
      simp only [Uint32Value]
      omega
    rw [h3]
  have iff1 : (Send s (.buffer data :: rest) env).ret = .throw (.TypeError priorityMessage)
        ↔ ∃ v tl, rest = v :: tl ∧ ¬ ∃ n : Nat, n < 32 ∧ v = .number (.int (n : Int)) := by
    constructor
    · intro h
      cases rest with
      | nil => exact absurd h (good 0 (Send_priority_one _)).1
      | cons v tl =>
        refine ⟨v, tl, rfl, ?_⟩
        rintro ⟨n, hn, rfl⟩
        exact absurd h (good n (small n tl hn rfl)).1
    · rintro ⟨v, tl, hr, hv⟩
      rw [key v tl hr hv]
  refine ⟨iff1, ?_, ?_, ?_, ?_⟩
  · intro h
    obtain ⟨v, tl, hr, hv⟩ := iff1.1 h
    rw [key v tl hr hv]
    exact ⟨rfl, rfl⟩
  · intro n tl hn hr
    refine iff1.2 ⟨_, tl, hr, ?_⟩
    rintro ⟨m, hm, he⟩
    injection he with he
    injection he with he
    omega
  · intro n tl hn hr
    exact (good n (small n tl hn hr)).2
  · intro hr
    subst hr
    exact (good 0 (Send_priority_one _)).2

/-- Witness of C5: priority 32 on a new handle. -/
theorem Send_priority_check_witness :
    (32 : Nat) ≤ 32
      ∧ [JsValue.number (.int 32)] = [JsValue.number (.int ((32 : Nat) : Int))]
      ∧ (Send fresh [.buffer [1], .number (.int 32)] envOk).ret
          = .throw (.TypeError priorityMessage)
      ∧ (Send fresh [.buffer [1], .number (.int 32)] envOk).st = fresh
      ∧ (Send fresh [.buffer [1], .number (.int 32)] envOk).trace = [] :=
  ⟨le_refl _, rfl,
    (Send_priority_check fresh [1] [.number (.int 32)] envOk).2.2.1 32 [] (le_refl _) rfl,
    ((Send_priority_check fresh [1] [.number (.int 32)] envOk).2.1
      ((Send_priority_check fresh [1] [.number (.int 32)] envOk).2.2.1 32 [] (le_refl _) rfl)).1,
    ((Send_priority_check fresh [1] [.number (.int 32)] envOk).2.1
      ((Send_priority_check fresh [1] [.number (.int 32)] envOk).2.2.1 32 [] (le_refl _) rfl)).2⟩

theorem toInt32_small (n : Nat) (h : n < 2147483648) : toInt32 (n : Int) = n := by
  unfold toInt32
  omega

/-- C6: for every `Receive` given a buffer.  When `mq_receive` succeeds with
`n` bytes at priority `p` (both within `int32_t`, as `Integer::New` requires),
the call returns the integer `n` if the second argument is omitted or `false`,
and the pair `(n, p)` if it is `true`.  When `mq_receive` fails with `EAGAIN`
the call returns `false` whatever the second argument is.  Any other failure
throws the OS error.  The attributes are fetched again after exactly the
outcomes that do not throw: then the trace is the dequeue followed by the
fetch and the state is the refreshed one, while a throwing call makes the
dequeue only and leaves the state as it was. -/
theorem Receive_outcomes (s : State) (data : List Nat) (rest : List JsValue) (env : Env)
    (n p : Nat) (hn : n < 2147483648) (hp : p < 2147483648) :
    (env.mq_receive = (n : Int) → env.mq_receive_prio = p →
        ((rest = [] ∨ ∃ tl, rest = .boolean false :: tl) →
            (Receive s (.buffer data :: rest) env).ret = .ret (.number (.int (n : Int))))
          ∧ ((∃ tl, rest = .boolean true :: tl) →
            (Receive s (.buffer data :: rest) env).ret
              = .ret (.array [.number (.int (n : Int)), .number (.int (p : Int))]))
          ∧ (Receive s (.buffer data :: rest) env).ret.returned = true
          ∧ (Receive s (.buffer data :: rest) env).trace
              = [.mq_receive s.obj.mqdes data.length, .mq_getattr s.obj.mqdes]
          ∧ (Receive s (.buffer data :: rest) env).st = refresh s env)
      ∧ (env.mq_receive = -1 → env.errno = EAGAIN →
          (Receive s (.buffer data :: rest) env).ret = .ret (.boolean false)
          ∧ (Receive s (.buffer data :: rest) env).trace
              = [.mq_receive s.obj.mqdes data.length, .mq_getattr s.obj.mqdes]
          ∧ (Receive s (.buffer data :: rest) env).st = refresh s env)
      ∧ (env.mq_receive = -1 → env.errno ≠ EAGAIN →
          (Receive s (.buffer data :: rest) env).ret = .throw (.Error .uv_strerror)
          ∧ (Receive s (.buffer data :: rest) env).trace
              = [.mq_receive s.obj.mqdes data.length]
          ∧ (Receive s (.buffer data :: rest) env).st = s) := by
  refine ⟨?_, ?_, ?_⟩
  · intro h1 h2
    have hne : ¬ ((n : Int) = -1) := by omega
    refine ⟨?_, ?_, ?_, ?_, ?_⟩
    · rintro (hr | ⟨tl, hr⟩) <;> subst hr <;>
        simp [Receive, arg, Buffer_HasInstance, h1, hne, Integer_New, toInt32_small n hn,
          BooleanValue]
    · rintro ⟨tl, hr⟩
      subst hr
      simp [Receive, arg, Buffer_HasInstance, h1, h2, hne, Integer_New, toInt32_small n hn,
        toInt32_small p hp, BooleanValue]
    · simp [Receive, arg, Buffer_HasInstance, h1, hne, Completion.returned]
    · simp [Receive, arg, Buffer_HasInstance, Buffer_Length, Buffer_Data, h1, hne]
    · simp [Receive, arg, Buffer_HasInstance, h1, hne]
  · intro h1 h2
    simp [Receive, arg, Buffer_HasInstance, Buffer_Length, Buffer_Data, h1, h2, Boolean_New]
  · intro h1 h2
    simp [Receive, arg, Buffer_HasInstance, Buffer_Length, Buffer_Data, h1, h2, throwOsError]

/-- Witness of C6: five bytes at priority 7 received with the tuple requested. -/
theorem Receive_outcomes_witness :
    (5 : Nat) < 2147483648 ∧ (7 : Nat) < 2147483648
      ∧ envOk.mq_receive = ((5 : Nat) : Int) ∧ envOk.mq_receive_prio = 7
      ∧ (Receive (Open fresh [cfgCreate] envOk).st [.buffer [0, 0, 0, 0, 0, 0, 0, 0], .boolean true]
            envOk).ret = .ret (.array [.number (.int ((5 : Nat) : Int)), .number (.int ((7 : Nat) : Int))]) :=
  ⟨by decide, by decide, rfl, rfl,
    ((Receive_outcomes (Open fresh [cfgCreate] envOk).st [0, 0, 0, 0, 0, 0, 0, 0] [.boolean true]
      envOk 5 7 (by decide) (by decide)).1 rfl rfl).2.1 ⟨[], rfl⟩⟩

/-! ### `Close` and `Unlink` -/

theorem ev_io_stop_obj (s : State) :
    (ev_io_stop s).obj.mqpollhandle.active = false
      ∧ (ev_io_stop s).obj.mqdes = s.obj.mqdes
      ∧ (ev_io_stop s).obj.mqname = s.obj.mqname
      ∧ (ev_io_stop s).obj.mqattrs = s.obj.mqattrs
      ∧ (ev_io_stop s).obj.Emit = s.obj.Emit
      ∧ (ev_io_stop s).obj.mqpollhandle.fd = s.obj.mqpollhandle.fd
      ∧ (ev_io_stop s).watched
          = if s.obj.mqpollhandle.active then s.watched.erase s.obj.mqpollhandle.fd
            else s.watched := by
  unfold ev_io_stop
  cases h : s.obj.mqpollhandle.active <;> simp [h]

theorem Close_invalid (s : State) (env : Env) (h : s.obj.mqdes = MQDES_INVALID) :
    (Close s env).ret = .throw (.Error (.lit "Queue already closed"))
      ∧ (Close s env).st = s ∧ (Close s env).trace = [] := by
  simp [Close, h]

theorem Close_valid (s : State) (env : Env) (hv : s.obj.mqdes ≠ MQDES_INVALID) :
    (Close s env).trace = [.ev_io_stop, .mq_close s.obj.mqdes]
      ∧ (Close s env).st.obj.mqpollhandle.active = false
      ∧ (s.watched = [s.obj.mqpollhandle.fd] → s.obj.mqpollhandle.active = true →
          (Close s env).st.watched = [])
      ∧ (Close s env).st.obj.mqname = s.obj.mqname
      ∧ (env.mq_close ≠ -1 →
          (Close s env).ret = .ret .undefined
            ∧ (Close s env).st.obj.mqdes = MQDES_INVALID)
      ∧ (env.mq_close = -1 →
          (Close s env).ret = .throw (.Error .uv_strerror)
            ∧ (Close s env).st.obj.mqdes = s.obj.mqdes) := by
  have hs := ev_io_stop_obj s
  by_cases hc : env.mq_close = -1
  · simp [Close, hv, hc, throwOsError, hs.1, hs.2.1, hs.2.2.1]
    intro hw ha
    rw [hs.2.2.2.2.2.2, ha, hw]
    simp
  · simp [Close, hv, hc, hs.1, hs.2.2.1]
    intro hw ha
    rw [hs.2.2.2.2.2.2, ha, hw]
    simp

/-- C7, as amended: for every handle state, `Close` throws "Queue already
closed" and changes nothing (no call is made) if the descriptor is the invalid
sentinel.  Otherwise it takes the handle off the dispatcher (`ev_io_stop`,
after which the watcher is inactive and no longer linked) and calls `mq_close`
on the descriptor; if `mq_close` succeeds `Close` returns and the descriptor is
the invalid sentinel, and if `mq_close` fails `Close` throws the OS error and
the descriptor stays as it was.  The stored name is unchanged in every case.
Hence a `Close` issued directly after a `Close` that returned always throws
"Queue already closed". -/
theorem Close_outcomes (s : State) (env : Env) :
    (s.obj.mqdes = MQDES_INVALID →
        (Close s env).ret = .throw (.Error (.lit "Queue already closed"))
          ∧ (Close s env).st = s ∧ (Close s env).trace = [])
      ∧ (s.obj.mqdes ≠ MQDES_INVALID →
          (Close s env).trace = [.ev_io_stop, .mq_close s.obj.mqdes]
            ∧ (Close s env).st.obj.mqpollhandle.active = false
            ∧ (s.watched = [s.obj.mqpollhandle.fd] → s.obj.mqpollhandle.active = true →
                (Close s env).st.watched = [])
            ∧ (Close s env).st.obj.mqname = s.obj.mqname
            ∧ (env.mq_close ≠ -1 →
                (Close s env).ret = .ret .undefined
                  ∧ (Close s env).st.obj.mqdes = MQDES_INVALID)
            ∧ (env.mq_close = -1 →
                (Close s env).ret = .throw (.Error .uv_strerror)
                  ∧ (Close s env).st.obj.mqdes = s.obj.mqdes))
      ∧ ((Close s env).ret.returned = true → ∀ env2,
          (Close (Close s env).st env2).ret = .throw (.Error (.lit "Queue already closed"))
            ∧ (Close (Close s env).st env2).st = (Close s env).st
            ∧ (Close (Close s env).st env2).trace = []) := by
  refine ⟨Close_invalid s env, Close_valid s env, ?_⟩
  intro hr env2
  apply Close_invalid
  by_cases hv : s.obj.mqdes = MQDES_INVALID
  · rw [(Close_invalid s env hv).1] at hr
    simp [Completion.returned] at hr
  · by_cases hc : env.mq_close = -1
    · rw [((Close_valid s env hv).2.2.2.2.2 hc).1] at hr
      simp [Completion.returned] at hr
    · exact ((Close_valid s env hv).2.2.2.2.1 hc).2

/-- Witness of C7 (amended): closing a handle that was just opened. -/
theorem Close_outcomes_witness :
    (Open fresh [cfgCreate] envOk).st.obj.mqdes ≠ MQDES_INVALID
      ∧ envOk.mq_close ≠ -1
      ∧ (Close (Open fresh [cfgCreate] envOk).st envOk).ret = .ret .undefined
      ∧ (Close (Open fresh [cfgCreate] envOk).st envOk).st.obj.mqdes = MQDES_INVALID
      ∧ (Close (Open fresh [cfgCreate] envOk).st envOk).st.obj.mqname = some "/q"
      ∧ (Close (Close (Open fresh [cfgCreate] envOk).st envOk).st envOk).ret
          = .throw (.Error (.lit "Queue already closed")) :=
  ⟨by decide, by decide,
    (((Close_outcomes (Open fresh [cfgCreate] envOk).st envOk).2.1 (by decide)).2.2.2.2.1
      (by decide)).1,
    (((Close_outcomes (Open fresh [cfgCreate] envOk).st envOk).2.1 (by decide)).2.2.2.2.1
      (by decide)).2,
    ((Close_outcomes (Open fresh [cfgCreate] envOk).st envOk).2.1 (by decide)).2.2.2.1,
    ((Close_outcomes (Open fresh [cfgCreate] envOk).st envOk).2.2 rfl envOk).1⟩

/-- Counterexample to C7 as stated: on an open handle (descriptor 3) a `Close`
whose `mq_close` fails throws the OS error and leaves descriptor 3 in place,
not the invalid sentinel; the `Close` issued directly after it does not throw
"Queue already closed" but calls `mq_close` on descriptor 3 again. -/
theorem Close_failure_keeps_descriptor :
    (Open fresh [cfgCreate] envOk).st.obj.mqdes = 3
      ∧ (Close (Open fresh [cfgCreate] envOk).st envCloseFails).ret
          = .throw (.Error .uv_strerror)
      ∧ (Close (Open fresh [cfgCreate] envOk).st envCloseFails).st.obj.mqdes = 3
      ∧ (Close (Open fresh [cfgCreate] envOk).st envCloseFails).st.obj.mqdes ≠ MQDES_INVALID
      ∧ (Close (Close (Open fresh [cfgCreate] envOk).st envCloseFails).st envOk).ret
          = .ret .undefined
      ∧ (Close (Close (Open fresh [cfgCreate] envOk).st envCloseFails).st envOk).trace
          = [.ev_io_stop, .mq_close 3] := by
  refine ⟨by decide, rfl, by decide, by decide, rfl, by decide⟩

theorem Open_release_obj (s : State) :
    (Open_release s).1.obj.mqdes = MQDES_INVALID
      ∧ (Open_release s).1.obj.mqname = s.obj.mqname
      ∧ (Open_release s).1.obj.Emit = s.obj.Emit
      ∧ (Open_release s).1.obj.mqattrs = s.obj.mqattrs
      ∧ (Linked s → (Open_release s).1.obj.mqpollhandle.active = false
                      ∧ (Open_release s).1.watched = []) := by
  have hs := ev_io_stop_obj s
  unfold Open_release
  by_cases hv : s.obj.mqdes = MQDES_INVALID
  · simp only [hv, ne_eq, not_true_eq_false, if_false, true_and]
    intro hl
    have ha : s.obj.mqpollhandle.active = false := by
      cases h : s.obj.mqpollhandle.active
      · rfl
      · exact absurd hv (hl.2 h).1
    refine ⟨ha, ?_⟩
    rw [hl.1, ha]
    simp
  · simp only [hv, ne_eq, not_false_eq_true, if_true, hs.1, hs.2.2.1, hs.2.2.2.1,
      hs.2.2.2.2.1, true_and]
    intro hl
    rw [hs.2.2.2.2.2.2, hl.1]
    cases h : s.obj.mqpollhandle.active <;> simp

theorem Open_reopen_obj (s : State) (c : OpenConfig) (env : Env) :
    (Open_reopen s c env).1.obj.mqdes = env.mq_open
      ∧ (Open_reopen s c env).1.obj.mqname = s.obj.mqname
      ∧ (Open_reopen s c env).1.obj.Emit = s.obj.Emit
      ∧ (Linked s → (Open_reopen s c env).1.obj.mqpollhandle.active = false
                      ∧ (Open_reopen s c env).1.watched = []) := by
  have hr := Open_release_obj { s with obj := { s.obj with mqattrs := c.mqattrs } }
  refine ⟨rfl, hr.2.1, hr.2.2.1, ?_⟩
  intro hl
  exact hr.2.2.2.2 hl

/-- What `Open` does to the handle, case by case. -/
theorem Open_cases (s : State) (args : List JsValue) (env : Env) :
    (∃ e, Open_config s.obj args = .error e
        ∧ Open s args env = { st := s, ret := .throw e, trace := [] })
      ∨ (∃ c, Open_config s.obj args = .ok c
        ∧ ((∃ tr, (env.mq_open = MQDES_INVALID ∨ env.mq_getattr = none)
              ∧ Open s args env = throwOsError (Open_reopen s c env).1 tr)
          ∨ (∃ a, env.mq_open ≠ MQDES_INVALID ∧ env.mq_getattr = some a
              ∧ Open s args env
                = { st := (Open_finish (Open_reopen s c env).1 c.name a).1
                    ret := .ret .undefined
                    trace := (Open_reopen s c env).2
                      ++ [.mq_getattr (Open_reopen s c env).1.obj.mqdes]
                      ++ (Open_finish (Open_reopen s c env).1 c.name a).2 }))) := by
  unfold Open
  cases hc : Open_config s.obj args with
  | error e => exact Or.inl ⟨e, rfl, rfl⟩
  | ok c =>
    refine Or.inr ⟨c, rfl, ?_⟩
    have hd : (Open_reopen s c env).1.obj.mqdes = env.mq_open := rfl
    by_cases hv : env.mq_open = MQDES_INVALID
    · exact Or.inl ⟨(Open_reopen s c env).2, Or.inl hv, by simp [hd, hv]⟩
    · cases ha : env.mq_getattr with
      | none =>
        exact Or.inl ⟨(Open_reopen s c env).2 ++ [.mq_getattr env.mq_open], Or.inr rfl,
          by simp [hd, hv]⟩
      | some a => exact Or.inr ⟨a, hv, rfl, by simp [hd, hv]⟩

theorem poll_cb_obj (s : State) (revents : Nat) (env : Env) :
    (poll_cb s revents env).1.obj.mqdes = s.obj.mqdes
      ∧ (poll_cb s revents env).1.obj.mqname = s.obj.mqname
      ∧ (poll_cb s revents env).1.obj.mqpollhandle = s.obj.mqpollhandle
      ∧ (poll_cb s revents env).1.obj.Emit = s.obj.Emit
      ∧ (poll_cb s revents env).1.watched = s.watched := by
  have hr := refresh_obj s env
  unfold poll_cb
  by_cases h : revents &&& EV_ERROR = 0
  · simp [h, hr.2.1, hr.2.2.1, hr.2.2.2.1, hr.2.2.2.2.1, hr.2.2.2.2.2]
  · simp [h]

theorem Open_mqname_of_thrown (s : State) (args : List JsValue) (env : Env)
    (h : (Open s args env).ret.returned = false) :
    (Open s args env).st.obj.mqname = s.obj.mqname := by
  rcases Open_cases s args env with ⟨e, _, he⟩ | ⟨c, _, ⟨tr, _, he⟩ | ⟨a, _, _, he⟩⟩
  · rw [he]
  · rw [he]
    exact (Open_reopen_obj s c env).2.1
  · rw [he] at h
    simp [Completion.returned] at h

theorem Unlink_mqname (s : State) (env : Env) :
    (Unlink s env).st.obj.mqname = s.obj.mqname ∨ (Unlink s env).st.obj.mqname = none := by
  unfold Unlink
  cases h : s.obj.mqname with
  | none => simp [h]
  | some name =>
    by_cases hu : env.mq_unlink = -1
    · simp [hu, throwOsError, h]
    · simp [hu]

theorem Close_mqname (s : State) (env : Env) :
    (Close s env).st.obj.mqname = s.obj.mqname := by
  by_cases hv : s.obj.mqdes = MQDES_INVALID
  · rw [(Close_invalid s env hv).2.1]
  · exact (Close_valid s env hv).2.2.2.1

theorem never_opened_mqname (ops : List Op) : ∀ s : State, s.obj.mqname = none →
    openSucceeded s ops = false → (run s ops).obj.mqname = none := by
  induction ops with
  | nil => intro s h _; exact h
  | cons op ops ih =>
    intro s h ho
    have hr := fun env => (refresh_obj s env).2.2.2.1
    cases op with
    | Open args env =>
      simp only [openSucceeded, Bool.or_eq_false_iff] at ho
      exact ih _ (by simp only [step]; rw [Open_mqname_of_thrown s args env ho.1]; exact h) ho.2
    | Close env =>
      simp only [openSucceeded, step] at ho
      exact ih _ (by simp only [step]; rw [Close_mqname]; exact h) ho
    | Unlink env =>
      simp only [openSucceeded, step] at ho
      refine ih _ ?_ ho
      simp only [step]
      rcases Unlink_mqname s env with h1 | h1
      · rw [h1]; exact h
      · exact h1
    | Send args env =>
      simp only [openSucceeded, step] at ho
      refine ih _ ?_ ho
      simp only [step, Send, throwTypeError, throwOsError]
      repeat (first | split | (simp only [hr]; exact h) | exact h)
    | Receive args env =>
      simp only [openSucceeded, step] at ho
      refine ih _ ?_ ho
      simp only [step, Receive, throwTypeError, throwOsError]
      repeat (first | split | (simp only [hr]; exact h) | exact h)
    | MsgsizeGetter env =>
      simp only [openSucceeded, step] at ho
      exact ih _ (by simp only [step, MsgsizeGetter, hr]; exact h) ho
    | MaxmsgsGetter env =>
      simp only [openSucceeded, step] at ho
      exact ih _ (by simp only [step, MaxmsgsGetter, hr]; exact h) ho
    | CurmsgsGetter env =>
      simp only [openSucceeded, step] at ho
      exact ih _ (by simp only [step, CurmsgsGetter, hr]; exact h) ho
    | IsfullGetter env =>
      simp only [openSucceeded, step] at ho
      exact ih _ (by simp only [step, IsfullGetter, hr]; exact h) ho
    | tick revents env =>
      simp only [openSucceeded, step] at ho
      refine ih _ ?_ ho
      simp only [step]
      split
      · simp only [(poll_cb_obj s revents env).2.1]; exact h
      · exact h

theorem Unlink_none (s : State) (env : Env) (h : s.obj.mqname = none) :
    (Unlink s env).ret = .throw (.Error (.lit "Nothing to unlink"))
      ∧ (Unlink s env).trace = [] ∧ (Unlink s env).st = s := by
  simp [Unlink, h]

theorem Unlink_some (s : State) (env : Env) (name : String) (h : s.obj.mqname = some name) :
    (env.mq_unlink = -1 →
        (Unlink s env).ret = .throw (.Error .uv_strerror)
          ∧ (Unlink s env).trace = [.mq_unlink name] ∧ (Unlink s env).st = s)
      ∧ (env.mq_unlink ≠ -1 →
        (Unlink s env).ret = .ret .undefined
          ∧ (Unlink s env).trace = [.mq_unlink name]
          ∧ (Unlink s env).st.obj.mqname = none) := by
  constructor
  · intro hu
    simp [Unlink, h, hu, throwOsError]
  · intro hu
    simp [Unlink, h, hu]

theorem unlinks_failing (envs : List Env) (s : State) (h : ∀ e ∈ envs, e.mq_unlink = -1) :
    unlinks s envs = s := by
  induction envs with
  | nil => rfl
  | cons e es ih =>
    have he : (Unlink s e).st = s := by
      cases hn : s.obj.mqname with
      | none => exact (Unlink_none s e hn).2.2
      | some name => exact ((Unlink_some s e name hn).1 (h e (List.mem_cons_self _ _))).2.2
    rw [unlinks, he]
    exact ih (fun x hx => h x (List.mem_cons_of_mem _ hx))

/-- C8: (1) on a handle on which no `Open` has ever returned normally,
whatever else was called, `Unlink` throws the usage error "Nothing to unlink",
makes no call (no name removal is attempted) and leaves the handle unchanged.
(2) After an `Open` that returned and then a `Close` that returned, failing
`Unlink`s change nothing, the first `Unlink` whose `mq_unlink` succeeds
returns normally, having removed the stored name, and clears it, and the
`Unlink` directly after it throws the usage error without any call.
(3) An `Unlink` on a handle with a stored name whose `mq_unlink` fails throws
the OS error and keeps the whole state, the stored name included. -/
theorem Unlink_outcomes (junk : mq_attr) (ops : List Op) (s : State) (args : List JsValue)
    (envO envC envU env2 : Env) (fails : List Env) :
    (openSucceeded (State.new junk) ops = false →
        (Unlink (run (State.new junk) ops) envU).ret = .throw (.Error (.lit "Nothing to unlink"))
          ∧ (Unlink (run (State.new junk) ops) envU).trace = []
          ∧ (Unlink (run (State.new junk) ops) envU).st = run (State.new junk) ops)
      ∧ ((Open s args envO).ret.returned = true →
          (Close (Open s args envO).st envC).ret.returned = true →
          (∀ e ∈ fails, e.mq_unlink = -1) → envU.mq_unlink ≠ -1 →
          ∀ t, t = unlinks (Close (Open s args envO).st envC).st fails →
            ∃ name, t.obj.mqname = some name
              ∧ (Unlink t envU).ret = .ret .undefined
              ∧ (Unlink t envU).trace = [.mq_unlink name]
              ∧ (Unlink t envU).st.obj.mqname = none
              ∧ (Unlink (Unlink t envU).st env2).ret
                  = .throw (.Error (.lit "Nothing to unlink"))
              ∧ (Unlink (Unlink t envU).st env2).trace = []
              ∧ (Unlink (Unlink t envU).st env2).st = (Unlink t envU).st)
      ∧ (∀ name, s.obj.mqname = some name → envU.mq_unlink = -1 →
          (Unlink s envU).ret = .throw (.Error .uv_strerror)
            ∧ (Unlink s envU).trace = [.mq_unlink name]
            ∧ (Unlink s envU).st = s
            ∧ (Unlink s envU).st.obj.mqname = some name) := by
  refine ⟨?_, ?_, ?_⟩
  · intro h
    exact Unlink_none _ envU (never_opened_mqname ops (State.new junk) rfl h)
  · intro hO _ hf hU t ht
    rw [unlinks_failing fails _ hf] at ht
    have hname : ∃ name, (Open s args envO).st.obj.mqname = some name := by
      rcases Open_cases s args envO with ⟨e, _, he⟩ | ⟨c, _, ⟨tr, _, he⟩ | ⟨a, _, _, he⟩⟩
      · rw [he] at hO; simp [Completion.returned] at hO
      · rw [he] at hO; simp [Completion.returned, throwOsError] at hO
      · rw [he]
        exact ⟨c.name, (Open_finish_obj _ c.name a).2.2.1⟩
    obtain ⟨name, hn⟩ := hname
    have htn : t.obj.mqname = some name := by
      rw [ht, Close_mqname, hn]
    have h1 := (Unlink_some t envU name htn).2 hU
    exact ⟨name, htn, h1.1, h1.2.1, h1.2.2, Unlink_none _ env2 h1.2.2⟩
  · intro name hn hu
    have h1 := (Unlink_some s envU name hn).1 hu
    refine ⟨h1.1, h1.2.1, h1.2.2, ?_⟩
    rw [h1.2.2]
    exact hn

/-- Witness of C8: `open`, `close`, a failing `unlink`, then two more. -/
theorem Unlink_outcomes_witness :
    (Open fresh [cfgCreate] envOk).ret.returned = true
      ∧ (Close (Open fresh [cfgCreate] envOk).st envOk).ret.returned = true
      ∧ (∀ e ∈ [envUnlinkFails], e.mq_unlink = -1) ∧ envOk.mq_unlink ≠ -1
      ∧ ∃ name, (unlinks (Close (Open fresh [cfgCreate] envOk).st envOk).st
                  [envUnlinkFails]).obj.mqname = some name
          ∧ (Unlink (unlinks (Close (Open fresh [cfgCreate] envOk).st envOk).st [envUnlinkFails])
              envOk).ret = .ret .undefined
          ∧ (Unlink (Unlink (unlinks (Close (Open fresh [cfgCreate] envOk).st envOk).st
              [envUnlinkFails]) envOk).st envOk).ret
                = .throw (.Error (.lit "Nothing to unlink")) :=
  ⟨by decide, by decide, by decide, by decide,
    by
      obtain ⟨name, h1, h2, _, _, h5, _⟩ :=
        (Unlink_outcomes fresh.obj.mqattrs [] fresh [cfgCreate] envOk envOk envOk envOk
          [envUnlinkFails]).2.1 (by decide) (by decide) (by decide) (by decide) _ rfl
      exact ⟨name, h1, h2, h5⟩⟩

/-! ### Binding of the sink -/

/-- C9 at its failing input: on a new handle the calls `open`, `unlink`,
`open`, all three successful, bind the sink twice (`Emit_New` occurs twice in
the trace): `Open` takes a missing name for "never opened", and `Unlink` has
cleared the name.  With `close` in place of `unlink` the sink is bound once. -/
theorem Open_after_Unlink_binds_again :
    (Open fresh [cfgCreate] envOk).ret.returned = true
      ∧ (Unlink (Open fresh [cfgCreate] envOk).st envOk).ret.returned = true
      ∧ (Open (Unlink (Open fresh [cfgCreate] envOk).st envOk).st [cfgAttach] envOk).ret.returned
          = true
      ∧ runTrace fresh [.Open [cfgCreate] envOk, .Unlink envOk, .Open [cfgAttach] envOk]
          = [.mq_open "/q" 2114 (some (384, { mq_flags := 0, mq_maxmsg := 10,
                                               mq_msgsize := 8192, mq_curmsgs := 0 })),
             .mq_getattr 3, .Emit_New, .ev_io_start 3,
             .mq_unlink "/q",
             .ev_io_stop, .mq_close 3, .mq_open "/q" 2050 none,
             .mq_getattr 3, .Emit_New, .ev_io_start 3]
      ∧ (runTrace fresh [.Open [cfgCreate] envOk, .Unlink envOk,
            .Open [cfgAttach] envOk]).count .Emit_New = 2
      ∧ (runTrace fresh [.Open [cfgCreate] envOk, .Close envOk,
            .Open [cfgAttach] envOk]).count .Emit_New = 1 := by
  refine ⟨by decide, by decide, by decide, by decide, by decide, by decide⟩

/-! ### Dispatcher registration -/

theorem Linked_of_same (s t : State) (h1 : t.obj.mqdes = s.obj.mqdes)
    (h2 : t.obj.mqpollhandle = s.obj.mqpollhandle) (h3 : t.watched = s.watched)
    (h : Linked s) : Linked t := by
  unfold Linked at h ⊢
  rw [h1, h2, h3]
  exact h

theorem Registered_of_same (s t : State) (h1 : t.obj.mqdes = s.obj.mqdes)
    (h2 : t.obj.mqpollhandle = s.obj.mqpollhandle)
    (h : Registered s) : Registered t := by
  unfold Registered at h ⊢
  rw [h1, h2]
  exact h

/-- Apart from `Open` and `Close`, no interaction touches the descriptor, the
watcher or the dispatcher. -/
theorem step_same (s : State) (op : Op)
    (hO : ∀ args env, op ≠ .Open args env) (hC : ∀ env, op ≠ .Close env) :
    (step s op).st.obj.mqdes = s.obj.mqdes
      ∧ (step s op).st.obj.mqpollhandle = s.obj.mqpollhandle
      ∧ (step s op).st.watched = s.watched := by
  have hr := fun env => refresh_obj s env
  cases op with
  | Open args env => exact absurd rfl (hO args env)
  | Close env => exact absurd rfl (hC env)
  | Unlink env =>
    simp only [step, Unlink]
    split
    · exact ⟨rfl, rfl, rfl⟩
    · split <;> exact ⟨rfl, rfl, rfl⟩
  | Send args env =>
    simp only [step, Send, throwTypeError, throwOsError]
    repeat (first | split | exact ⟨rfl, rfl, rfl⟩
                  | exact ⟨(hr env).2.1, (hr env).2.2.1, (hr env).2.2.2.2.2⟩)
  | Receive args env =>
    simp only [step, Receive, throwTypeError, throwOsError]
    repeat (first | split | exact ⟨rfl, rfl, rfl⟩
                  | exact ⟨(hr env).2.1, (hr env).2.2.1, (hr env).2.2.2.2.2⟩)
  | MsgsizeGetter env => exact ⟨(hr env).2.1, (hr env).2.2.1, (hr env).2.2.2.2.2⟩
  | MaxmsgsGetter env => exact ⟨(hr env).2.1, (hr env).2.2.1, (hr env).2.2.2.2.2⟩
  | CurmsgsGetter env => exact ⟨(hr env).2.1, (hr env).2.2.1, (hr env).2.2.2.2.2⟩
  | IsfullGetter env => exact ⟨(hr env).2.1, (hr env).2.2.1, (hr env).2.2.2.2.2⟩
  | tick revents env =>
    have hp := poll_cb_obj s revents env
    simp only [step]
    split
    · exact ⟨hp.1, hp.2.2.1, hp.2.2.2.2⟩
    · exact ⟨rfl, rfl, rfl⟩

theorem Open_Linked (s : State) (args : List JsValue) (env : Env) (h : Linked s) :
    Linked (Open s args env).st := by
  have hro := Open_reopen_obj s
  rcases Open_cases s args env with ⟨e, _, he⟩ | ⟨c, _, ⟨tr, _, he⟩ | ⟨a, hv, _, he⟩⟩
  · rw [he]; exact h
  · rw [he]
    have h2 := (hro c env).2.2.2 h
    simp only [throwOsError, Linked, h2.1, h2.2]
    simp
  · rw [he]
    have h2 := (hro c env).2.2.2 h
    have hf := Open_finish_obj (Open_reopen s c env).1 c.name a
    simp only [Linked, hf.2.2.2.2.2.1, hf.2.2.2.2.2.2.1, hf.2.2.2.2.2.2.2, hf.2.1, h2.2,
      (hro c env).1]
    simp [hv]

theorem Close_Linked (s : State) (env : Env) (h : Linked s) : Linked (Close s env).st := by
  have hs := ev_io_stop_obj s
  have hw : (ev_io_stop s).watched = [] := by
    rw [hs.2.2.2.2.2.2, h.1]
    cases s.obj.mqpollhandle.active <;> simp
  unfold Close
  by_cases hv : s.obj.mqdes = MQDES_INVALID
  · simp only [hv, if_true]; exact h
  · by_cases hc : env.mq_close = -1
    · simp only [hv, hc, if_false, if_true, throwOsError, Linked, hs.1, hw]
      simp
    · simp only [hv, hc, if_false, Linked, hs.1, hw]
      simp

theorem step_Linked (s : State) (op : Op) (h : Linked s) : Linked (step s op).st := by
  by_cases hO : ∃ args env, op = .Open args env
  · obtain ⟨args, env, rfl⟩ := hO
    exact Open_Linked s args env h
  · by_cases hC : ∃ env, op = .Close env
    · obtain ⟨env, rfl⟩ := hC
      exact Close_Linked s env h
    · have hs := step_same s op (fun a e he => hO ⟨a, e, he⟩) (fun e he => hC ⟨e, he⟩)
      exact Linked_of_same s _ hs.1 hs.2.1 hs.2.2 h

theorem run_Linked (ops : List Op) : ∀ s : State, Linked s → Linked (run s ops) := by
  induction ops with
  | nil => intro s h; exact h
  | cons op ops ih => intro s h; exact ih _ (step_Linked s op h)

theorem Open_Registered (s : State) (args : List JsValue) (env : Env)
    (ho : (Op.Open args env).orderly = true) (h : Registered s) :
    Registered (Open s args env).st := by
  have hro := Open_reopen_obj s
  rcases Open_cases s args env with ⟨e, _, he⟩ | ⟨c, _, ⟨tr, hf, he⟩ | ⟨a, hv, _, he⟩⟩
  · rw [he]; exact h
  · rw [he]
    have hd : env.mq_open = MQDES_INVALID := by
      rcases hf with hf | hf
      · exact hf
      · simp only [Op.orderly, hf, Option.isSome_none, Bool.or_false, decide_eq_true_eq] at ho
        exact ho
    intro hne
    exact absurd (by simp only [throwOsError, (hro c env).1, hd]) hne
  · rw [he]
    intro _
    exact (Open_finish_obj (Open_reopen s c env).1 c.name a).2.2.2.2.2.1

theorem Close_Registered (s : State) (env : Env)
    (ho : (Op.Close env).orderly = true) (h : Registered s) :
    Registered (Close s env).st := by
  by_cases hv : s.obj.mqdes = MQDES_INVALID
  · rw [(Close_invalid s env hv).2.1]; exact h
  · have hc : env.mq_close ≠ -1 := by simpa [Op.orderly] using ho
    intro hne
    exact absurd (((Close_valid s env hv).2.2.2.2.1 hc).2) hne

theorem run_Registered (ops : List Op) : ∀ s : State, Registered s →
    (∀ op ∈ ops, op.orderly = true) → Registered (run s ops) := by
  induction ops with
  | nil => intro s h _; exact h
  | cons op ops ih =>
    intro s h ho
    refine ih _ ?_ (fun x hx => ho x (List.mem_cons_of_mem _ hx))
    have h1 := ho op (List.mem_cons_self _ _)
    by_cases hO : ∃ args env, op = .Open args env
    · obtain ⟨args, env, rfl⟩ := hO
      exact Open_Registered s args env h1 h
    · by_cases hC : ∃ env, op = .Close env
      · obtain ⟨env, rfl⟩ := hC
        exact Close_Registered s env h1 h
      · have hs := step_same s op (fun a e he => hO ⟨a, e, he⟩) (fun e he => hC ⟨e, he⟩)
        exact Registered_of_same s _ hs.1 hs.2.1 h

/-- What holds of `Open` on the path where `mq_open` itself fails: the OS
error is thrown, the descriptor is the invalid sentinel, and a descriptor held
before the call was taken off the dispatcher and closed first. -/
theorem Open_mq_open_failure (s : State) (args : List JsValue) (env : Env) (c : OpenConfig)
    (hc : Open_config s.obj args = .ok c) (hf : env.mq_open = MQDES_INVALID) :
    (Open s args env).ret = .throw (.Error .uv_strerror)
      ∧ (Open s args env).st.obj.mqdes = MQDES_INVALID
      ∧ (s.obj.mqdes ≠ MQDES_INVALID →
          ∃ tr, (Open s args env).trace = .ev_io_stop :: .mq_close s.obj.mqdes :: tr) := by
  have hd : (Open_reopen s c env).1.obj.mqdes = MQDES_INVALID := by
    rw [(Open_reopen_obj s c env).1, hf]
  unfold Open
  simp only [hc, hd, if_true, throwOsError, true_and]
  intro hv
  simp [Open_reopen, Open_release, hv]

/-- C10, as amended: in every state reachable from a newly constructed handle
by any sequence of `Open`, `Close`, `Unlink`, `Send`, `Receive`, accessor reads
and dispatcher ticks, whatever the operating system answers, the dispatcher
holds at most one registration of the handle; if it holds one, the descriptor
is valid and is the registered one; so a tick is delivered only to a handle
whose descriptor is valid.  Conversely, along sequences in which no `Close`
fails in `mq_close` and no `Open` fails in the attribute fetch after a
successful `mq_open`, a valid descriptor is always registered. -/
theorem registration_invariant (junk : mq_attr) (ops : List Op) :
    (run (State.new junk) ops).watched.length ≤ 1
      ∧ ((run (State.new junk) ops).watched ≠ [] →
          (run (State.new junk) ops).obj.mqdes ≠ MQDES_INVALID
            ∧ (run (State.new junk) ops).watched = [(run (State.new junk) ops).obj.mqdes])
      ∧ (delivered (run (State.new junk) ops) = true →
          (run (State.new junk) ops).obj.mqdes ≠ MQDES_INVALID)
      ∧ ((∀ op ∈ ops, op.orderly = true) →
          (run (State.new junk) ops).obj.mqdes ≠ MQDES_INVALID →
          (run (State.new junk) ops).watched = [(run (State.new junk) ops).obj.mqdes]) := by
  have h0 : Linked (State.new junk) := by
    simp [Linked, State.new, PosixMQ.new]
  have hl := run_Linked ops _ h0
  have key : (run (State.new junk) ops).watched ≠ [] →
      (run (State.new junk) ops).obj.mqdes ≠ MQDES_INVALID
        ∧ (run (State.new junk) ops).watched = [(run (State.new junk) ops).obj.mqdes] := by
    intro hne
    cases ha : (run (State.new junk) ops).obj.mqpollhandle.active with
    | false => rw [hl.1, ha] at hne; simp at hne
    | true =>
      refine ⟨(hl.2 ha).1, ?_⟩
      rw [hl.1, ha, (hl.2 ha).2]
      simp
  refine ⟨?_, key, ?_, ?_⟩
  · rw [hl.1]
    cases (run (State.new junk) ops).obj.mqpollhandle.active <;> simp
  · intro hd
    refine (key ?_).1
    intro he
    simp [delivered, he] at hd
  · intro ho hv
    have h1 : Registered (State.new junk) := by
      intro h
      exact absurd rfl h
    have ha := run_Registered ops _ h1 ho hv
    rw [hl.1, ha, (hl.2 ha).2]
    simp

/-- Witness of C10 (amended): open, send, tick, close, open again. -/
theorem registration_invariant_witness :
    (∀ op ∈ [Op.Open [cfgCreate] envOk, .Send [.buffer [1]] envOk, .tick 3 envOk,
              .Close envOk, .Open [cfgAttach] envOk], op.orderly = true)
      ∧ (run fresh [.Open [cfgCreate] envOk, .Send [.buffer [1]] envOk, .tick 3 envOk,
              .Close envOk, .Open [cfgAttach] envOk]).obj.mqdes ≠ MQDES_INVALID
      ∧ (run fresh [.Open [cfgCreate] envOk, .Send [.buffer [1]] envOk, .tick 3 envOk,
              .Close envOk, .Open [cfgAttach] envOk]).watched
          = [(run fresh [.Open [cfgCreate] envOk, .Send [.buffer [1]] envOk, .tick 3 envOk,
              .Close envOk, .Open [cfgAttach] envOk]).obj.mqdes] :=
  ⟨by decide, by decide,
    (registration_invariant fresh.obj.mqattrs
      [.Open [cfgCreate] envOk, .Send [.buffer [1]] envOk, .tick 3 envOk,
        .Close envOk, .Open [cfgAttach] envOk]).2.2.2 (by decide) (by decide)⟩

/-- Counterexample to C10 as stated: a new handle, a successful `open`, then a
`close` whose `mq_close` fails.  `Close` has already taken the handle off the
dispatcher when `mq_close` fails, and it keeps the descriptor: the state
reached holds the valid descriptor 3 and no registration. -/
theorem Close_failure_leaves_unregistered :
    (run fresh [.Open [cfgCreate] envOk, .Close envCloseFails]).obj.mqdes = 3
      ∧ (run fresh [.Open [cfgCreate] envOk, .Close envCloseFails]).watched = []
      ∧ ¬ ((run fresh [.Open [cfgCreate] envOk, .Close envCloseFails]).watched ≠ []
            ↔ (run fresh [.Open [cfgCreate] envOk, .Close envCloseFails]).obj.mqdes
                ≠ MQDES_INVALID) := by
  refine ⟨by decide, by decide, by decide⟩

end PMQ
